/-
Verification of the Guardian-ACL risk-scoring engine.

Shallow embedding of the Python sources:
  * backend/app/risk_calculator.py  (compute_risk_score, generate_recommendations, clamp)
  * backend/app/risk_api.py         (get_realtime_risk_assessment)
  * backend/routes/predict.py       (calculate_formula_risk, load_ml_model,
                                     predict_with_model, get_risk_level,
                                     get_recommendations, predict_acl_risk)

Python floats are modelled as exact rationals (ℚ).  Python's `round(x, n)`
(round-half-to-even) is modelled by `pyround`.  Python dictionary access
`d.get(key, default)` is modelled by `Option` fields with `getD`; the Python
truthiness test `x or default` / `if not x` (which treats both `None` and `0`
as missing) is modelled by `pyOrQ` / an explicit zero test.  Python string
formatting inside f-strings is modelled by exact decimal rendering helpers.
-/
import Mathlib

set_option autoImplicit false
set_option linter.unnecessarySeqFocus false

namespace GuardianACL

/-- `clamp` from risk_calculator.py: `max(lo, min(hi, x))`. -/
def clamp (x lo hi : ℚ) : ℚ := max lo (min hi x)

/-- `clamp` applied with its Python default bounds `lo = 0.0`, `hi = 1.0`. -/
def clamp01 (x : ℚ) : ℚ := clamp x 0 1

/-- Round-half-to-even on ℚ, the tie-breaking rule of Python's `round`. -/
def round_half_even (x : ℚ) : ℤ :=
  if x - ⌊x⌋ < 1/2 then ⌊x⌋
  else if 1/2 < x - ⌊x⌋ then ⌊x⌋ + 1
  else if ⌊x⌋ % 2 = 0 then ⌊x⌋ else ⌊x⌋ + 1

/-- Python `round(x, n)` on our rational model of floats. -/
def pyround (x : ℚ) (n : ℕ) : ℚ := (round_half_even (x * 10 ^ n) : ℚ) / 10 ^ n

/-- Python `x or default` for a possibly-missing number: `None` and `0` are
falsy, so both fall through to the default. -/
def pyOrQ (x : Option ℚ) (d : ℚ) : ℚ :=
  match x with
  | some v => if v = 0 then d else v
  | none => d

/-- Python `x or default` for a possibly-missing string (`None` and `""` are
falsy). -/
def pyOrS (x : Option String) (d : String) : String :=
  match x with
  | some v => if v = "" then d else v
  | none => d

/-- Python `int(x)` on a float: truncation toward zero. -/
def pyint (x : ℚ) : ℤ := if 0 ≤ x then ⌊x⌋ else -⌊-x⌋

/-- Decimal rendering of `pyround x 1`, modelling the `{v:.1f}` format. -/
def fmt1 (x : ℚ) : String :=
  let n : ℤ := round_half_even (x * 10)
  let sign : String := if n < 0 then "-" else ""
  let m : ℤ := if n < 0 then -n else n
  sign ++ toString (m / 10) ++ "." ++ toString (m % 10)

/-- Python `str.lower()` on ASCII text: lowercase every character. -/
def pyLower (s : String) : String := String.mk (s.data.map Char.toLower)

/-- Python `str.title()` restricted to space-separated words (the sport names
that actually occur contain no other separators). -/
def pyTitle (s : String) : String :=
  String.intercalate " " ((s.splitOn " ").map String.capitalize)

/-! ### Input records

`features` and `user` are Python dicts read with `.get`; an `Option` field
being `none` models the key being absent. -/

/-- The weekly-aggregate dict passed to `compute_risk_score` as `features`. -/
structure Features where
  avg_steps_day : Option ℚ
  avg_peak_minutes_day : Option ℚ
  avg_resting_hr : Option ℚ
  avg_minutes_asleep : Option ℚ
  weight_kg : Option ℚ
  high_intensity_days : Option ℚ
deriving DecidableEq

/-- The user-profile dict passed to `compute_risk_score` as `user`. -/
structure UserProfile where
  height_cm : Option ℚ
  weight_kg : Option ℚ
  sex : Option String
  age : Option ℚ
  sport : Option String
  acl_history_flag : Option Bool
  baseline_resting_hr : Option ℚ
  knee_pain_score : Option ℚ
  rehab_status : Option String
deriving DecidableEq

namespace Features

/-- `features.get('avg_steps_day', 0)`. -/
def avg_steps (f : Features) : ℚ := f.avg_steps_day.getD 0

/-- `features.get('avg_peak_minutes_day', 0)`. -/
def avg_peak_minutes (f : Features) : ℚ := f.avg_peak_minutes_day.getD 0

/-- `features.get('avg_resting_hr', 0)`. -/
def avg_resting_hr_val (f : Features) : ℚ := f.avg_resting_hr.getD 0

/-- `features.get('avg_minutes_asleep', 0)`. -/
def avg_minutes_asleep_val (f : Features) : ℚ := f.avg_minutes_asleep.getD 0

end Features

namespace UserProfile

/-- `features.get('weight_kg', user.get('weight_kg', 70))`. -/
def weight_val (f : Features) (u : UserProfile) : ℚ :=
  f.weight_kg.getD (u.weight_kg.getD 70)

/-- `user.get('height_cm', 170)`. -/
def height_cm_val (u : UserProfile) : ℚ := u.height_cm.getD 170

/-- `height_m = height_cm / 100.0`. -/
def height_m (u : UserProfile) : ℚ := u.height_cm_val / 100

/-- `user.get('sex', 'M')`. -/
def sex_val (u : UserProfile) : String := u.sex.getD "M"

/-- `user.get('age', 25)`. -/
def age_val (u : UserProfile) : ℚ := u.age.getD 25

/-- `user.get('sport', 'none').lower()`. -/
def sport_val (u : UserProfile) : String := pyLower (u.sport.getD "none")

/-- `user.get('acl_history_flag', False)`. -/
def acl_history (u : UserProfile) : Bool := u.acl_history_flag.getD false

/-- `user.get('knee_pain_score', 0)`. -/
def knee_pain (u : UserProfile) : ℚ := u.knee_pain_score.getD 0

/-- The same profile with the `sex` field set, used to compare calls that
are identical except for `sex`. -/
def withSex (u : UserProfile) (s : String) : UserProfile :=
  ⟨u.height_cm, u.weight_kg, some s, u.age, u.sport, u.acl_history_flag,
   u.baseline_resting_hr, u.knee_pain_score, u.rehab_status⟩

end UserProfile

/-- `bmi = weight_kg / (height_m ** 2) if height_m > 0 else 22`. -/
def bmi_of (f : Features) (u : UserProfile) : ℚ :=
  if 0 < u.height_m then UserProfile.weight_val f u / u.height_m ^ 2 else 22

/-- Age- and sex-based population default for the resting-HR baseline. -/
def default_baseline_hr (u : UserProfile) : ℚ :=
  if u.sex_val = "F" then (if u.age_val < 30 then 68 else 70)
  else (if u.age_val < 30 then 63 else 65)

/-- `baseline_hr = user.get('baseline_resting_hr')`, replaced by the
population default when falsy (absent or zero). -/
def baseline_hr_of (u : UserProfile) : ℚ :=
  match u.baseline_resting_hr with
  | some b => if b = 0 then default_baseline_hr u else b
  | none => default_baseline_hr u

/-- Load index: `clamp((avg_steps - 5000) / (20000 - 5000))`. -/
def load_index (f : Features) : ℚ :=
  clamp01 ((f.avg_steps - 5000) / (20000 - 5000))

/-- Intensity index: `clamp(avg_peak_minutes / 60.0)`. -/
def intensity_index (f : Features) : ℚ :=
  clamp01 (f.avg_peak_minutes / 60)

/-- Fatigue HR sub-component: elevation over baseline when HR data is
present, `0.5` when absent. -/
def hr_component (f : Features) (u : UserProfile) : ℚ :=
  if 0 < f.avg_resting_hr_val then
    clamp01 ((f.avg_resting_hr_val - baseline_hr_of u) / 8)
  else (1 : ℚ)/2

/-- Fatigue sleep sub-component: deficit below the 420-minute baseline when
sleep data is present, `0.5` when absent. -/
def sleep_component (f : Features) : ℚ :=
  if 0 < f.avg_minutes_asleep_val then
    clamp01 ((420 - f.avg_minutes_asleep_val) / 240)
  else (1 : ℚ)/2

/-- Fatigue index: `max(hr_component, sleep_component)`. -/
def fatigue_index (f : Features) (u : UserProfile) : ℚ :=
  max (hr_component f u) (sleep_component f)

/-- BMI index: `clamp((bmi - 22) / (35 - 22))`. -/
def bmi_index (f : Features) (u : UserProfile) : ℚ :=
  clamp01 ((bmi_of f u - 22) / (35 - 22))

/-- History index: `1.0 if acl_history_flag else 0.0`. -/
def history_index (u : UserProfile) : ℚ :=
  if u.acl_history then 1 else 0

/-- Pain index: `clamp(knee_pain / 10.0)`. -/
def pain_index (u : UserProfile) : ℚ :=
  clamp01 (u.knee_pain / 10)

/-- The `sport_factors` lookup table with its `.get(sport, 0.05)` default. -/
def sport_factors (s : String) : ℚ :=
  if s = "football" then 0.25
  else if s = "soccer" then 0.20
  else if s = "basketball" then 0.18
  else if s = "running" then 0.08
  else if s = "cycling" then 0.03
  else if s = "none" then 0.05
  else 0.05

/-- `sport_risk = sport_factors.get(sport, 0.05)` on the lowercased sport. -/
def sport_risk_of (u : UserProfile) : ℚ := sport_factors u.sport_val

/-- `sport_index = sport_risk / 0.25`. -/
def sport_index_of (u : UserProfile) : ℚ := sport_risk_of u / 0.25

/-- The weighted raw risk sum of the six components. -/
def risk_raw (f : Features) (u : UserProfile) : ℚ :=
  0.30 * load_index f +
  0.25 * fatigue_index f u +
  0.15 * intensity_index f +
  0.10 * bmi_index f u +
  0.10 * history_index u +
  0.05 * pain_index u

/-- `risk_adjusted = clamp(risk_raw * (1 + 0.15 * sport_index))`, before the
sex adjustment. -/
def risk_after_sport (f : Features) (u : UserProfile) : ℚ :=
  clamp01 (risk_raw f u * (1 + 0.15 * sport_index_of u))

/-- `risk_adjusted` after the sport multiplier and the sex adjustment
(`if sex == 'F': risk_adjusted = clamp(risk_adjusted * 1.15)`). -/
def risk_adjusted (f : Features) (u : UserProfile) : ℚ :=
  if u.sex_val = "F" then clamp01 (risk_after_sport f u * 1.15)
  else risk_after_sport f u

/-- The `missing_data` entries recorded during fatigue normalization, in
append order: `resting_heart_rate` first, then `sleep_data`. -/
def missing_signals (f : Features) : List String :=
  (if 0 < f.avg_resting_hr_val then [] else ["resting_heart_rate"]) ++
  (if 0 < f.avg_minutes_asleep_val then [] else ["sleep_data"])

/-! ### The result record returned by `compute_risk_score` -/

/-- One entry of the `components` mapping (the six weighted factors). -/
structure Component where
  index : ℚ
  weight : ℚ
  contribution : ℚ
  description : String
deriving DecidableEq

/-- The `sport` entry of the `components` mapping (multiplier, not weight). -/
structure SportComponent where
  index : ℚ
  multiplier : ℚ
  description : String
deriving DecidableEq

/-- The `components` mapping of the result dict. -/
structure ComponentMap where
  load : Component
  fatigue : Component
  intensity : Component
  bmi : Component
  history : Component
  pain : Component
  sport : SportComponent
deriving DecidableEq

/-- The `metadata` sub-dict of the result. -/
structure RiskMetadata where
  bmi : ℚ
  baseline_resting_hr : ℚ
  sex : String
  age : ℚ
deriving DecidableEq

/-- The dict returned by `compute_risk_score`. -/
structure RiskResult where
  risk_score : ℚ
  risk_level : String
  risk_color : String
  confidence : String
  missing_data : List String
  components : ComponentMap
  metadata : RiskMetadata
deriving DecidableEq

/-- `risk_level` from the adjusted score: `<0.30 → Low`, `<0.60 → Moderate`,
else `High`. -/
def risk_level_of (adjusted : ℚ) : String :=
  if adjusted < 0.30 then "Low"
  else if adjusted < 0.60 then "Moderate"
  else "High"

/-- `risk_color` from the adjusted score, on the same branches. -/
def risk_color_of (adjusted : ℚ) : String :=
  if adjusted < 0.30 then "green"
  else if adjusted < 0.60 then "yellow"
  else "red"

/-- Confidence from the fatigue-stage missing list: `≥2 → low`,
`=1 → medium`, else `high`. -/
def confidence_from_missing (missing : List String) : String :=
  if 2 ≤ missing.length then "low"
  else if missing.length = 1 then "medium"
  else "high"

/-- `compute_risk_score` from risk_calculator.py. -/
def compute_risk_score (f : Features) (u : UserProfile) : RiskResult :=
  let adjusted := risk_adjusted f u
  let missing0 := missing_signals f
  let confidence0 := confidence_from_missing missing0
  { risk_score := pyround (adjusted * 100) 1
    risk_level := risk_level_of adjusted
    risk_color := risk_color_of adjusted
    confidence := if f.avg_steps < 1000 then "low" else confidence0
    missing_data :=
      if f.avg_steps < 1000 then missing0 ++ ["insufficient_activity_data"]
      else missing0
    components :=
      { load :=
          { index := pyround (load_index f) 3
            weight := 0.30
            contribution := pyround (load_index f * 0.30) 3
            description :=
              "Avg " ++ toString (pyint f.avg_steps) ++ " steps/day" }
        fatigue :=
          { index := pyround (fatigue_index f u) 3
            weight := 0.25
            contribution := pyround (fatigue_index f u * 0.25) 3
            description :=
              "HR: " ++ toString (pyint f.avg_resting_hr_val) ++
              " bpm, Sleep: " ++ fmt1 (f.avg_minutes_asleep_val / 60) ++ "h" }
        intensity :=
          { index := pyround (intensity_index f) 3
            weight := 0.15
            contribution := pyround (intensity_index f * 0.15) 3
            description :=
              toString (pyint f.avg_peak_minutes) ++ " peak min/day" }
        bmi :=
          { index := pyround (bmi_index f u) 3
            weight := 0.10
            contribution := pyround (bmi_index f u * 0.10) 3
            description := "BMI: " ++ fmt1 (bmi_of f u) }
        history :=
          { index := pyround (history_index u) 3
            weight := 0.10
            contribution := pyround (history_index u * 0.10) 3
            description :=
              if u.acl_history then "Previous ACL injury" else "No ACL history" }
        pain :=
          { index := pyround (pain_index u) 3
            weight := 0.05
            contribution := pyround (pain_index u * 0.05) 3
            description := "Knee pain: " ++ toString u.knee_pain ++ "/10" }
        sport :=
          { index := pyround (sport_index_of u) 3
            multiplier := 0.15
            description := "Sport: " ++ pyTitle u.sport_val } }
    metadata :=
      { bmi := pyround (bmi_of f u) 1
        baseline_resting_hr := baseline_hr_of u
        sex := u.sex_val
        age := u.age_val } }

/-! ### `generate_recommendations` (risk_calculator.py)

The Python function appends to a `recommendations` list rule by rule and
finally returns `recommendations[:5]`.  `recommendation_sequence` is the full
appended list; `generate_recommendations` is its 5-element truncation. -/

/-- The full recommendation list, rule by rule in source order, before the
final `[:5]` truncation. -/
def recommendation_sequence (risk_result : RiskResult) (features : Features)
    (user : UserProfile) : List String :=
  let components := risk_result.components
  -- HIGH LOAD recommendations
  (if 0.7 < components.load.index then
    ["⚠️ Training volume is very high. Reduce step count by 15-20% for the next 48 hours to allow recovery."]
  else if 0.5 < components.load.index then
    ["📊 Training load is elevated. Monitor for signs of fatigue and ensure adequate rest days."]
  else []) ++
  -- FATIGUE recommendations
  (if 0.6 < components.fatigue.index then
    (let avg_sleep_hours := features.avg_minutes_asleep_val / 60
     (if avg_sleep_hours < 7 then
       ["😴 Sleep quality is poor (" ++ fmt1 avg_sleep_hours ++ "h avg). Target 7-9 hours per night for optimal recovery."]
     else []) ++
     ["🔄 Schedule a complete rest day within the next 48 hours. High fatigue increases injury risk."])
  else []) ++
  -- INTENSITY recommendations
  (if 0.7 < components.intensity.index then
    ["🏃 High-intensity training is frequent. Incorporate more low-intensity active recovery sessions."]
  else []) ++
  -- BMI recommendations
  (if 30 < risk_result.metadata.bmi then
    ["⚖️ BMI is elevated (" ++ fmt1 risk_result.metadata.bmi ++ "). Consider consulting a sports nutritionist for weight management."]
  else if risk_result.metadata.bmi < 18.5 then
    ["⚖️ BMI is low (" ++ fmt1 risk_result.metadata.bmi ++ "). Ensure adequate nutrition to support training demands."]
  else []) ++
  -- PAIN recommendations
  (if 5 ≤ user.knee_pain then
    ["🏥 URGENT: Knee pain is significant (" ++ toString user.knee_pain ++ "/10). Consult a sports medicine physician or physical therapist immediately."]
  else if 3 ≤ user.knee_pain then
    ["⚕️ Moderate knee pain detected (" ++ toString user.knee_pain ++ "/10). Monitor closely and reduce high-impact activities."]
  else []) ++
  -- ACL HISTORY recommendations
  (if user.acl_history_flag.getD false then
    ["🔍 Previous ACL injury detected. Maintain neuromuscular training and avoid sudden direction changes without proper warm-up."] ++
    (if user.rehab_status ≠ some "recovered" then
      ["💪 Continue prescribed rehabilitation exercises. Compliance is critical for preventing re-injury."]
    else [])
  else []) ++
  -- SPORT-SPECIFIC recommendations
  (if user.sport_val = "football" ∨ user.sport_val = "soccer" ∨ user.sport_val = "basketball" then
    ["⚽ For " ++ pyTitle user.sport_val ++ ": Focus on landing mechanics, deceleration training, and core stability exercises."]
  else []) ++
  -- GENERAL recommendations
  (if risk_result.risk_level = "High" then
    ["🛡️ Overall risk is HIGH. Consider a formal ACL injury prevention program (e.g., FIFA 11+, PEP program)."]
  else []) ++
  (if risk_result.confidence = "low" then
    ["📱 Data quality is limited. Ensure your Fitbit is synced daily for more accurate risk assessment."]
  else [])

/-- `generate_recommendations`: the sequence truncated to its first 5
entries (`return recommendations[:5]`). -/
def generate_recommendations (risk_result : RiskResult) (features : Features)
    (user : UserProfile) : List String :=
  (recommendation_sequence risk_result features user).take 5

/-! ### `get_realtime_risk_assessment` (risk_api.py)

The endpoint reads a `User` row and its recent `ActivityData` rows from the
database; we model those rows directly.  Fields of a row may be NULL
(`Option`), and the Python code tests them for truthiness, so a stored `0`
behaves like NULL there. -/

/-- One `ActivityData` database row, as the endpoint reads it. -/
structure ActivityRow where
  steps : Option ℚ
  very_active_minutes : Option ℚ
  resting_heart_rate : Option ℚ
  sleep_duration_minutes : Option ℚ
  weight_kg : Option ℚ
  distance : Option ℚ
deriving DecidableEq

/-- The `User` database row fields consumed by the endpoint. -/
structure DbUser where
  height_cm : Option ℚ
  sex : Option String
  age : Option ℚ
  sport : Option String
  acl_history_flag : Option Bool
  baseline_resting_hr : Option ℚ
  knee_pain_score : Option ℚ
  rehab_status : Option String
  weight_kg : Option ℚ
deriving DecidableEq

/-- Python truthiness of an optional rational (`None` and `0` are falsy). -/
def truthyQ (x : Option ℚ) : Bool :=
  match x with
  | some v => v ≠ 0
  | none => false

/-- `sum(d.steps for d in activity_data if d.steps)`. -/
def total_steps (rows : List ActivityRow) : ℚ :=
  (rows.filter (fun d => truthyQ d.steps)).foldr (fun d acc => d.steps.getD 0 + acc) 0

/-- `[d.very_active_minutes or 0 for d in activity_data]`. -/
def peak_minutes_list (rows : List ActivityRow) : List ℚ :=
  rows.map (fun d => pyOrQ d.very_active_minutes 0)

/-- `[d.resting_heart_rate for d in activity_data if d.resting_heart_rate]`. -/
def resting_hr_list (rows : List ActivityRow) : List ℚ :=
  (rows.filter (fun d => truthyQ d.resting_heart_rate)).map (fun d => d.resting_heart_rate.getD 0)

/-- `[d.sleep_duration_minutes for d in activity_data if d.sleep_duration_minutes]`. -/
def sleep_minutes_list (rows : List ActivityRow) : List ℚ :=
  (rows.filter (fun d => truthyQ d.sleep_duration_minutes)).map (fun d => d.sleep_duration_minutes.getD 0)

/-- `sum(xs) / len(xs) if xs else 0`. -/
def avg_or_zero (xs : List ℚ) : ℚ :=
  if xs.isEmpty then 0 else xs.sum / xs.length

/-- First row weight that is truthy (`latest_weight` loop with `break`). -/
def latest_weight (rows : List ActivityRow) : Option ℚ :=
  match rows.find? (fun d => truthyQ d.weight_kg) with
  | some d => d.weight_kg
  | none => none

/-- `sum(1 for m in peak_minutes if m > 30)`. -/
def high_intensity_days_of (rows : List ActivityRow) : ℚ :=
  ((peak_minutes_list rows).filter (fun m => 30 < m)).length

/-- The two shapes of response the endpoint returns: the short-circuit
`insufficient_data` dict, or the full assessment built by the scoring
engine.  Only the latter invokes `compute_risk_score`. -/
inductive RealtimeResponse where
  | insufficientData (status message : String) (risk_score : Option ℚ)
      (risk_level risk_color confidence : String)
      (recommendations : List String)
  | assessment (status : String) (data_days : ℕ) (risk : RiskResult)
      (recommendations : List String)
deriving DecidableEq

namespace RealtimeResponse

/-- The `status` field of either response shape. -/
def status : RealtimeResponse → String
  | insufficientData s _ _ _ _ _ _ => s
  | assessment s _ _ _ => s

/-- The `risk_score` field of either response shape (`None` in the
short-circuit case). -/
def riskScore : RealtimeResponse → Option ℚ
  | insufficientData _ _ rs _ _ _ _ => rs
  | assessment _ _ r _ => some r.risk_score

/-- Whether the response came from the scoring path, i.e. whether
`compute_risk_score` was invoked to build it. -/
def invokedScoring : RealtimeResponse → Bool
  | insufficientData _ _ _ _ _ _ _ => false
  | assessment _ _ _ _ => true

end RealtimeResponse

/-- The weekly-aggregate dict the endpoint assembles for the calculator. -/
def aggregate_features (user : DbUser) (rows : List ActivityRow) : Features :=
  { avg_steps_day := some (if rows.isEmpty then 0 else total_steps rows / rows.length)
    avg_peak_minutes_day := some (avg_or_zero (peak_minutes_list rows))
    avg_resting_hr := some (avg_or_zero (resting_hr_list rows))
    avg_minutes_asleep := some (avg_or_zero (sleep_minutes_list rows))
    weight_kg := some (pyOrQ (latest_weight rows) (pyOrQ user.weight_kg 70))
    high_intensity_days := some (high_intensity_days_of rows) }

/-- The user-profile dict the endpoint assembles for the calculator
(`or`-defaults applied field by field; `baseline_resting_hr` and
`rehab_status` passed through unchanged). -/
def profile_of_db_user (user : DbUser) (weight : ℚ) : UserProfile :=
  { height_cm := some (pyOrQ user.height_cm 170)
    weight_kg := some weight
    sex := some (pyOrS user.sex "M")
    age := some (pyOrQ user.age 25)
    sport := some (pyOrS user.sport "none")
    acl_history_flag := some (user.acl_history_flag.getD false)
    baseline_resting_hr := user.baseline_resting_hr
    knee_pain_score := some (pyOrQ user.knee_pain_score 0)
    rehab_status := user.rehab_status }

/-- `get_realtime_risk_assessment` (risk_api.py), for a user that exists and
is active.  With fewer than 3 usable activity rows the endpoint
short-circuits before any aggregation or scoring. -/
def get_realtime_risk_assessment (user : DbUser) (activity_data : List ActivityRow) :
    RealtimeResponse :=
  if activity_data.isEmpty ∨ activity_data.length < 3 then
    .insufficientData "insufficient_data"
      "Not enough activity data yet. Need at least 3 days of Fitbit data."
      none "Unknown" "gray" "low"
      ["Connect your Fitbit and sync for at least 3 days to get accurate risk assessment.",
       "Ensure your Fitbit app is syncing with the same email you used to log in."]
  else
    let features := aggregate_features user activity_data
    let weight := pyOrQ (latest_weight activity_data) (pyOrQ user.weight_kg 70)
    let user_profile := profile_of_db_user user weight
    let risk_result := compute_risk_score features user_profile
    let recommendations := generate_recommendations risk_result features user_profile
    .assessment "success" activity_data.length risk_result recommendations

/-! ### Prediction route (routes/predict.py) -/

/-- `PredictRequest`: optional metrics plus `acl_history` (default `False`)
and `knee_pain` (default `0`). -/
structure PredictRequest where
  user_id : String
  steps : Option ℚ
  active_minutes : Option ℚ
  resting_hr : Option ℚ
  peak_hr_minutes : Option ℚ
  sleep_efficiency : Option ℚ
  minutes_asleep : Option ℚ
  weight : Option ℚ
  sport_type : Option String
  acl_history : Bool
  knee_pain : Option ℚ
deriving DecidableEq

/-- The same request with the `sleep_efficiency` field set, used to compare
requests that are identical except for sleep efficiency. -/
def PredictRequest.withSleepEff (d : PredictRequest) (e : Option ℚ) : PredictRequest :=
  ⟨d.user_id, d.steps, d.active_minutes, d.resting_hr, d.peak_hr_minutes, e,
   d.minutes_asleep, d.weight, d.sport_type, d.acl_history, d.knee_pain⟩

/-- `PredictResponse`. -/
structure PredictResponse where
  user_id : String
  risk_score : ℚ
  risk_level : String
  method : String
  confidence : Option ℚ
  recommendations : List String
deriving DecidableEq

/-- `calculate_formula_risk`: the weighted fallback formula with
`or`-defaults for missing metrics, an ACL-history multiplier and a final
clamp to `[0, 1]` (`min(max(risk, 0.0), 1.0)`). -/
def calculate_formula_risk (data : PredictRequest) : ℚ :=
  let resting_hr := pyOrQ data.resting_hr 70
  let active_minutes := pyOrQ data.active_minutes 30
  let sleep_efficiency := pyOrQ data.sleep_efficiency 85
  let knee_pain := pyOrQ data.knee_pain 0
  let risk :=
    0.4 * (resting_hr / 100) +
    0.3 * (active_minutes / 60) +
    0.2 * (sleep_efficiency / 100) +
    0.1 * (knee_pain / 10)
  let risk := if data.acl_history then risk * 1.3 else risk
  min (max risk 0) 1

/-- `get_risk_level` (predict.py). -/
def get_risk_level (risk_score : ℚ) : String :=
  if risk_score < 0.3 then "low"
  else if risk_score < 0.6 then "moderate"
  else "high"

/-- `get_recommendations` (predict.py): rule list in source order, with the
truthiness guards (`data.knee_pain and ...`) of the original. -/
def get_recommendations (risk_score : ℚ) (data : PredictRequest) : List String :=
  (if 0.6 ≤ risk_score then
    ["⚠️ HIGH RISK: Consider consulting a sports medicine professional",
     "Reduce training intensity by 20-30% for the next week"]
  else []) ++
  (if truthyQ data.knee_pain ∧ 5 < pyOrQ data.knee_pain 0 then
    ["🦵 Significant knee pain detected - schedule medical evaluation",
     "Avoid high-impact activities until pain subsides"]
  else []) ++
  (if truthyQ data.sleep_efficiency ∧ pyOrQ data.sleep_efficiency 0 < 75 then
    ["😴 Poor sleep quality - prioritize 8+ hours of quality sleep",
     "Consider sleep hygiene improvements and recovery protocols"]
  else []) ++
  (if truthyQ data.active_minutes ∧ 90 < pyOrQ data.active_minutes 0 then
    ["🏃 High training volume - ensure adequate rest days",
     "Incorporate active recovery and mobility work"]
  else []) ++
  (if truthyQ data.resting_hr ∧ 75 < pyOrQ data.resting_hr 0 then
    ["❤️ Elevated resting heart rate - may indicate overtraining or fatigue",
     "Take an extra rest day and monitor recovery metrics"]
  else []) ++
  (if data.acl_history then
    ["🔄 Previous ACL injury - maintain neuromuscular training program",
     "Focus on hamstring strengthening and landing mechanics"]
  else []) ++
  (if risk_score < 0.3 then
    ["✅ Low risk - maintain current training load and recovery practices"]
  else if risk_score < 0.6 then
    ["⚡ Moderate risk - monitor fatigue and adjust training as needed"]
  else []) ++
  ["🔧 Continue ACL injury prevention exercises (FIFA 11+, PEP program)"]

/-- The possible interactions of the endpoint with the stored ML model:
no artifact in storage, an exception while downloading/deserialising it, an
exception raised inside `predict_with_model`, or a successful prediction
`(risk_score, confidence)`. -/
inductive MLOutcome where
  | noArtifact
  | loadError
  | predictError
  | predicted (score confidence : ℚ)
deriving DecidableEq

/-- `load_ml_model`: returns the loaded model, or `None` either when no
artifact exists or when any exception occurs (the `except` swallows it). -/
def load_ml_model (outcome : MLOutcome) : Option MLOutcome :=
  match outcome with
  | .noArtifact => none
  | .loadError => none
  | o => some o

/-- `predict_with_model`: propagates the model's `(score, confidence)` or
re-raises the prediction exception. -/
def predict_with_model (model : MLOutcome) : Except String (ℚ × ℚ) :=
  match model with
  | .predicted s c => .ok (s, c)
  | _ => .error "ML prediction failed"

/-- An error surfaced to the caller by the outer handler (HTTP 500). -/
structure HttpError where
  status_code : ℕ
  detail : String
deriving DecidableEq

/-- `predict_acl_risk` (POST /predict/): tries the ML model, falls back to
`calculate_formula_risk` whenever the model is absent or raises, and only
surfaces an error if something outside the ML path throws (nothing in this
model does). -/
def predict_acl_risk (outcome : MLOutcome) (data : PredictRequest) :
    Except HttpError PredictResponse :=
  let mlResult : Option (ℚ × ℚ) :=
    match load_ml_model outcome with
    | none => none
    | some model =>
      match predict_with_model model with
      | .ok r => some r
      | .error _ => none  -- inner `except`: fall back to the formula
  let scoreMethodConf : ℚ × String × Option ℚ :=
    match mlResult with
    | some (s, c) => (s, "ml_model", some c)
    | none => (calculate_formula_risk data, "formula", none)
  let risk_score := scoreMethodConf.1
  let method := scoreMethodConf.2.1
  let confidence := scoreMethodConf.2.2
  .ok
    { user_id := data.user_id
      risk_score := pyround risk_score 3
      risk_level := get_risk_level risk_score
      method := method
      confidence :=
        match confidence with
        | some c => if c = 0 then none else some (pyround c 3)
        | none => none
      recommendations := get_recommendations risk_score data }

/-! ## Helper lemmas -/

theorem clamp01_nonneg (x : ℚ) : 0 ≤ clamp01 x := le_max_left 0 _

theorem clamp01_le_one (x : ℚ) : clamp01 x ≤ 1 :=
  max_le (by norm_num) (min_le_left 1 x)

theorem clamp01_mono {x y : ℚ} (h : x ≤ y) : clamp01 x ≤ clamp01 y :=
  max_le_max le_rfl (min_le_min le_rfl h)

theorem clamp01_eq_self {x : ℚ} (h0 : 0 ≤ x) (h1 : x ≤ 1) : clamp01 x = x := by
  unfold clamp01 clamp
  rw [min_eq_right h1, max_eq_right h0]

theorem floor_le_round_half_even (x : ℚ) : ⌊x⌋ ≤ round_half_even x := by
  unfold round_half_even
  split_ifs <;> omega

theorem round_half_even_le_floor_add_one (x : ℚ) : round_half_even x ≤ ⌊x⌋ + 1 := by
  unfold round_half_even
  split_ifs <;> omega

theorem round_half_even_intCast (k : ℤ) : round_half_even (k : ℚ) = k := by
  unfold round_half_even
  rw [Int.floor_intCast]
  norm_num

theorem round_half_even_mono {x y : ℚ} (h : x ≤ y) :
    round_half_even x ≤ round_half_even y := by
  have hf : ⌊x⌋ ≤ ⌊y⌋ := Int.floor_le_floor h
  rcases eq_or_lt_of_le hf with heq | hlt
  · unfold round_half_even
    rw [← heq]
    split_ifs <;> first | omega | (exfalso; linarith)
  · calc round_half_even x ≤ ⌊x⌋ + 1 := round_half_even_le_floor_add_one x
      _ ≤ ⌊y⌋ := by omega
      _ ≤ round_half_even y := floor_le_round_half_even y

theorem round_half_even_close (x : ℚ) :
    x - 1/2 ≤ (round_half_even x : ℚ) ∧ (round_half_even x : ℚ) ≤ x + 1/2 := by
  have hle := Int.floor_le x
  have hlt := Int.lt_floor_add_one x
  unfold round_half_even
  constructor <;> split_ifs <;> push_cast <;> linarith

theorem pyround_mono {x y : ℚ} (n : ℕ) (h : x ≤ y) : pyround x n ≤ pyround y n := by
  unfold pyround
  have h10 : (0 : ℚ) < 10 ^ n := by positivity
  apply div_le_div_of_nonneg_right ?_ (le_of_lt h10) |>.trans_eq rfl
  exact_mod_cast round_half_even_mono (mul_le_mul_of_nonneg_right h (le_of_lt h10))

theorem pyround_intCast (k : ℤ) (n : ℕ) : pyround (k : ℚ) n = k := by
  unfold pyround
  have : ((k : ℚ) * 10 ^ n) = ((k * 10 ^ n : ℤ) : ℚ) := by push_cast; ring
  rw [this, round_half_even_intCast]
  have h10 : (10 : ℚ) ^ n ≠ 0 := by positivity
  push_cast
  field_simp

/-- `pyround` keeps a value inside an interval with integer endpoints. -/
theorem pyround_mem {x : ℚ} {a b : ℤ} (n : ℕ) (ha : (a : ℚ) ≤ x) (hb : x ≤ b) :
    (a : ℚ) ≤ pyround x n ∧ pyround x n ≤ b := by
  constructor
  · have := pyround_mono n ha
    rwa [pyround_intCast] at this
  · have := pyround_mono n hb
    rwa [pyround_intCast] at this

/-- `pyround x 1` is within `1/20` of `x`. -/
theorem pyround_one_close (x : ℚ) : |pyround x 1 - x| ≤ 1/20 := by
  unfold pyround
  obtain ⟨h1, h2⟩ := round_half_even_close (x * 10 ^ 1)
  rw [abs_le]
  constructor <;> [skip; skip] <;>
    · rw [div_sub' _ _ _ (by norm_num : ((10:ℚ)^1) ≠ 0)] at *
      norm_num at *
      linarith

/-! ## Bounds of the normalized indices -/

theorem hr_component_mem (f : Features) (u : UserProfile) :
    0 ≤ hr_component f u ∧ hr_component f u ≤ 1 := by
  unfold hr_component
  split_ifs
  · exact ⟨clamp01_nonneg _, clamp01_le_one _⟩
  · norm_num

theorem sleep_component_mem (f : Features) :
    0 ≤ sleep_component f ∧ sleep_component f ≤ 1 := by
  unfold sleep_component
  split_ifs
  · exact ⟨clamp01_nonneg _, clamp01_le_one _⟩
  · norm_num

theorem fatigue_index_mem (f : Features) (u : UserProfile) :
    0 ≤ fatigue_index f u ∧ fatigue_index f u ≤ 1 := by
  obtain ⟨h1, h2⟩ := hr_component_mem f u
  obtain ⟨h3, h4⟩ := sleep_component_mem f
  exact ⟨le_max_of_le_left h1, max_le h2 h4⟩

theorem history_index_mem (u : UserProfile) :
    0 ≤ history_index u ∧ history_index u ≤ 1 := by
  unfold history_index
  split_ifs <;> norm_num

theorem sport_index_mem (u : UserProfile) :
    0 ≤ sport_index_of u ∧ sport_index_of u ≤ 1 := by
  unfold sport_index_of sport_risk_of sport_factors
  split_ifs <;> norm_num

theorem risk_after_sport_mem (f : Features) (u : UserProfile) :
    0 ≤ risk_after_sport f u ∧ risk_after_sport f u ≤ 1 :=
  ⟨clamp01_nonneg _, clamp01_le_one _⟩

theorem risk_adjusted_mem (f : Features) (u : UserProfile) :
    0 ≤ risk_adjusted f u ∧ risk_adjusted f u ≤ 1 := by
  unfold risk_adjusted
  split_ifs
  · exact ⟨clamp01_nonneg _, clamp01_le_one _⟩
  · exact risk_after_sport_mem f u

theorem load_index_mem (f : Features) : 0 ≤ load_index f ∧ load_index f ≤ 1 :=
  ⟨clamp01_nonneg _, clamp01_le_one _⟩

theorem intensity_index_mem (f : Features) :
    0 ≤ intensity_index f ∧ intensity_index f ≤ 1 :=
  ⟨clamp01_nonneg _, clamp01_le_one _⟩

theorem bmi_index_mem (f : Features) (u : UserProfile) :
    0 ≤ bmi_index f u ∧ bmi_index f u ≤ 1 :=
  ⟨clamp01_nonneg _, clamp01_le_one _⟩

theorem pain_index_mem (u : UserProfile) : 0 ≤ pain_index u ∧ pain_index u ≤ 1 :=
  ⟨clamp01_nonneg _, clamp01_le_one _⟩

/-! ## Claim theorems -/

/-- Claim C1 (counterexample): the claim asserts the six nominal component
weights in the returned mapping sum to exactly 1.0; at this concrete input
(and indeed at every input) they sum to 0.95, which is not 1. -/
theorem C1_counterexample_weights_sum :
    (compute_risk_score
        ⟨some 10000, some 30, some 65, some 450, some 70, none⟩
        ⟨some 175, none, some "M", some 25, some "none", some false, some 65, some 0, none⟩).components.load.weight +
    (compute_risk_score
        ⟨some 10000, some 30, some 65, some 450, some 70, none⟩
        ⟨some 175, none, some "M", some 25, some "none", some false, some 65, some 0, none⟩).components.fatigue.weight +
    (compute_risk_score
        ⟨some 10000, some 30, some 65, some 450, some 70, none⟩
        ⟨some 175, none, some "M", some 25, some "none", some false, some 65, some 0, none⟩).components.intensity.weight +
    (compute_risk_score
        ⟨some 10000, some 30, some 65, some 450, some 70, none⟩
        ⟨some 175, none, some "M", some 25, some "none", some false, some 65, some 0, none⟩).components.bmi.weight +
    (compute_risk_score
        ⟨some 10000, some 30, some 65, some 450, some 70, none⟩
        ⟨some 175, none, some "M", some 25, some "none", some false, some 65, some 0, none⟩).components.history.weight +
    (compute_risk_score
        ⟨some 10000, some 30, some 65, some 450, some 70, none⟩
        ⟨some 175, none, some "M", some 25, some "none", some false, some 65, some 0, none⟩).components.pain.weight = 19/20 ∧
    (19/20 : ℚ) ≠ 1 := by
  constructor
  · norm_num [compute_risk_score]
  · norm_num

/-- Claim C1 (amended): the nominal weights of the six weighted components
in the result of `compute_risk_score` sum to exactly 0.95, not 1.0 (the
sport factor enters as a separate multiplier). -/
theorem C1_component_weights_sum (f : Features) (u : UserProfile) :
    (compute_risk_score f u).components.load.weight +
    (compute_risk_score f u).components.fatigue.weight +
    (compute_risk_score f u).components.intensity.weight +
    (compute_risk_score f u).components.bmi.weight +
    (compute_risk_score f u).components.history.weight +
    (compute_risk_score f u).components.pain.weight = 19/20 := by
  norm_num [compute_risk_score]

/-- Claim C2: for every `WeeklyAggregate` and `UserProfile` input, the
`risk_score` returned by `compute_risk_score` lies in `[0, 100]` and every
component index in the returned `components` mapping lies in `[0, 1]`. -/
theorem C2_score_and_indices_bounded (f : Features) (u : UserProfile) :
    (0 ≤ (compute_risk_score f u).risk_score ∧
      (compute_risk_score f u).risk_score ≤ 100) ∧
    (0 ≤ (compute_risk_score f u).components.load.index ∧
      (compute_risk_score f u).components.load.index ≤ 1) ∧
    (0 ≤ (compute_risk_score f u).components.fatigue.index ∧
      (compute_risk_score f u).components.fatigue.index ≤ 1) ∧
    (0 ≤ (compute_risk_score f u).components.intensity.index ∧
      (compute_risk_score f u).components.intensity.index ≤ 1) ∧
    (0 ≤ (compute_risk_score f u).components.bmi.index ∧
      (compute_risk_score f u).components.bmi.index ≤ 1) ∧
    (0 ≤ (compute_risk_score f u).components.history.index ∧
      (compute_risk_score f u).components.history.index ≤ 1) ∧
    (0 ≤ (compute_risk_score f u).components.pain.index ∧
      (compute_risk_score f u).components.pain.index ≤ 1) ∧
    (0 ≤ (compute_risk_score f u).components.sport.index ∧
      (compute_risk_score f u).components.sport.index ≤ 1) := by
  obtain ⟨ha0, ha1⟩ := risk_adjusted_mem f u
  refine ⟨?_, ?_, ?_, ?_, ?_, ?_, ?_, ?_⟩
  · have h0 : ((0 : ℤ) : ℚ) ≤ risk_adjusted f u * 100 := by push_cast; linarith
    have h1 : risk_adjusted f u * 100 ≤ ((100 : ℤ) : ℚ) := by push_cast; linarith
    simpa using pyround_mem 1 h0 h1
  · obtain ⟨h0, h1⟩ := load_index_mem f
    simpa using pyround_mem 3 (by exact_mod_cast h0) (by exact_mod_cast h1)
  · obtain ⟨h0, h1⟩ := fatigue_index_mem f u
    simpa using pyround_mem 3 (by exact_mod_cast h0) (by exact_mod_cast h1)
  · obtain ⟨h0, h1⟩ := intensity_index_mem f
    simpa using pyround_mem 3 (by exact_mod_cast h0) (by exact_mod_cast h1)
  · obtain ⟨h0, h1⟩ := bmi_index_mem f u
    simpa using pyround_mem 3 (by exact_mod_cast h0) (by exact_mod_cast h1)
  · obtain ⟨h0, h1⟩ := history_index_mem u
    simpa using pyround_mem 3 (by exact_mod_cast h0) (by exact_mod_cast h1)
  · obtain ⟨h0, h1⟩ := pain_index_mem u
    simpa using pyround_mem 3 (by exact_mod_cast h0) (by exact_mod_cast h1)
  · obtain ⟨h0, h1⟩ := sport_index_mem u
    simpa using pyround_mem 3 (by exact_mod_cast h0) (by exact_mod_cast h1)

/-- Claim C3 (counterexample): a concrete input whose returned `risk_score`
is exactly 30 while the returned `risk_level` is `"Low"`.  The claim says
the returned level is determined by the returned score with a score of 30
mapping to `"Moderate"`; in the code the level is decided by the adjusted
score before rounding (here 0.2999 < 0.30), and rounding pushes the
reported score up to 30.0. -/
theorem C3_counterexample_score_30_but_low :
    (compute_risk_score
        ⟨some (2014500/103), some 0, some 60, some 450, some 60, none⟩
        ⟨some 170, none, some "M", some 25, some "none", some false, some 65, none, none⟩).risk_score = 30 ∧
    (compute_risk_score
        ⟨some (2014500/103), some 0, some 60, some 450, some 60, none⟩
        ⟨some 170, none, some "M", some 25, some "none", some false, some 65, none, none⟩).risk_level = "Low" := by
  have hlow : pyLower "none" = "none" := by decide
  have h1 : "none" ≠ "football" := by decide
  have h2 : "none" ≠ "soccer" := by decide
  have h3 : "none" ≠ "basketball" := by decide
  have h4 : "none" ≠ "running" := by decide
  have h5 : "none" ≠ "cycling" := by decide
  have h6 : "M" ≠ "F" := by decide
  constructor <;>
    norm_num [compute_risk_score, risk_adjusted, risk_after_sport, risk_raw,
      load_index, intensity_index, fatigue_index, hr_component, sleep_component,
      bmi_index, bmi_of, history_index, pain_index, sport_index_of, sport_risk_of,
      sport_factors, baseline_hr_of, default_baseline_hr, clamp01, clamp,
      pyround, round_half_even, risk_level_of, Features.avg_steps, Features.avg_peak_minutes,
      Features.avg_resting_hr_val, Features.avg_minutes_asleep_val,
      UserProfile.weight_val, UserProfile.height_cm_val, UserProfile.height_m,
      UserProfile.sex_val, UserProfile.age_val, UserProfile.sport_val, hlow,
      h1, h2, h3, h4, h5, h6,
      UserProfile.acl_history, UserProfile.knee_pain, max_def, min_def]

/-- Claim C3 (amended): `risk_level` and `risk_color` are determined, with
inclusive-low boundaries at 30 and 60, by the pre-rounding adjusted score
(`risk_adjusted · 100`), not by the returned rounded `risk_score`; the
returned `risk_score` equals the adjusted score up to the 0.05 rounding
error, so the claimed mapping holds of `risk_score` only within rounding. -/
theorem C3_level_decided_by_adjusted_score (f : Features) (u : UserProfile) :
    ((compute_risk_score f u).risk_level = "Low" ↔
      risk_adjusted f u * 100 < 30) ∧
    ((compute_risk_score f u).risk_level = "Moderate" ↔
      30 ≤ risk_adjusted f u * 100 ∧ risk_adjusted f u * 100 < 60) ∧
    ((compute_risk_score f u).risk_level = "High" ↔
      60 ≤ risk_adjusted f u * 100) ∧
    ((compute_risk_score f u).risk_color = "green" ↔
      (compute_risk_score f u).risk_level = "Low") ∧
    ((compute_risk_score f u).risk_color = "yellow" ↔
      (compute_risk_score f u).risk_level = "Moderate") ∧
    ((compute_risk_score f u).risk_color = "red" ↔
      (compute_risk_score f u).risk_level = "High") ∧
    |(compute_risk_score f u).risk_score - risk_adjusted f u * 100| ≤ 1/20 := by
  have hL : (compute_risk_score f u).risk_level = risk_level_of (risk_adjusted f u) := rfl
  have hC : (compute_risk_score f u).risk_color = risk_color_of (risk_adjusted f u) := rfl
  have hS : (compute_risk_score f u).risk_score = pyround (risk_adjusted f u * 100) 1 := rfl
  rw [hL, hC, hS]
  unfold risk_level_of risk_color_of
  have h30 : risk_adjusted f u < 0.30 ↔ risk_adjusted f u * 100 < 30 := by
    constructor <;> intro h <;> nlinarith
  have h60 : risk_adjusted f u < 0.60 ↔ risk_adjusted f u * 100 < 60 := by
    constructor <;> intro h <;> nlinarith
  refine ⟨?_, ?_, ?_, ?_, ?_, ?_, pyround_one_close _⟩ <;>
    split_ifs with h1 h2 <;>
    simp_all <;> linarith

/-- Claim C4 (counterexample): two calls identical except for `sex` where
the `sex='F'` call scores strictly lower than the `sex='M'` call.  The
profile supplies no `baseline_resting_hr`, so the sex-specific population
default applies: the female default baseline (68) is higher than the male
one (63), which shrinks the HR-elevation fatigue component for the female
call more than the 1.15 sex multiplier can compensate
(F scores 11.1, M scores 25.8). -/
theorem C4_counterexample_female_lower :
    (compute_risk_score ⟨some 5000, some 0, some 71, some 450, some 60, none⟩
      (UserProfile.withSex ⟨some 170, none, none, some 25, some "none", some false, none, none, none⟩ "F")).risk_score <
    (compute_risk_score ⟨some 5000, some 0, some 71, some 450, some 60, none⟩
      (UserProfile.withSex ⟨some 170, none, none, some 25, some "none", some false, none, none, none⟩ "M")).risk_score := by
  have hlow : pyLower "none" = "none" := by decide
  have h1 : "none" ≠ "football" := by decide
  have h2 : "none" ≠ "soccer" := by decide
  have h3 : "none" ≠ "basketball" := by decide
  have h4 : "none" ≠ "running" := by decide
  have h5 : "none" ≠ "cycling" := by decide
  have h6 : "M" ≠ "F" := by decide
  norm_num [compute_risk_score, risk_adjusted, risk_after_sport, risk_raw,
    load_index, intensity_index, fatigue_index, hr_component, sleep_component,
    bmi_index, bmi_of, history_index, pain_index, sport_index_of, sport_risk_of,
    sport_factors, baseline_hr_of, default_baseline_hr, clamp01, clamp,
    pyround, round_half_even, Features.avg_steps, Features.avg_peak_minutes,
    Features.avg_resting_hr_val, Features.avg_minutes_asleep_val,
    UserProfile.weight_val, UserProfile.height_cm_val, UserProfile.height_m,
    UserProfile.sex_val, UserProfile.age_val, UserProfile.sport_val,
    UserProfile.withSex, hlow, h1, h2, h3, h4, h5, h6,
    UserProfile.acl_history, UserProfile.knee_pain, max_def, min_def]

/-- Claim C4 (amended): when the profile supplies a nonzero
`baseline_resting_hr` — so the sex-dependent population default baseline is
bypassed — two calls identical except for `sex` satisfy the claim: the
`sex='F'` call's `risk_score` is ≥ the `sex='M'` call's.  (Without a
supplied baseline the sex-specific default baselines can reverse the
inequality.) -/
theorem C4_female_score_ge_male_given_baseline (f : Features) (u : UserProfile)
    (b : ℚ) (hb : u.baseline_resting_hr = some b) (hb0 : b ≠ 0) :
    (compute_risk_score f (u.withSex "M")).risk_score ≤
    (compute_risk_score f (u.withSex "F")).risk_score := by
  have hbF : baseline_hr_of (u.withSex "F") = b := by
    simp [baseline_hr_of, UserProfile.withSex, hb, hb0]
  have hbM : baseline_hr_of (u.withSex "M") = b := by
    simp [baseline_hr_of, UserProfile.withSex, hb, hb0]
  have hhr : hr_component f (u.withSex "F") = hr_component f (u.withSex "M") := by
    unfold hr_component
    rw [hbF, hbM]
  have hraw : risk_raw f (u.withSex "F") = risk_raw f (u.withSex "M") := by
    unfold risk_raw fatigue_index
    rw [hhr]
    rfl
  have hAS : risk_after_sport f (u.withSex "F") = risk_after_sport f (u.withSex "M") := by
    unfold risk_after_sport
    rw [hraw]
    rfl
  obtain ⟨h0, h1⟩ := risk_after_sport_mem f (u.withSex "M")
  have hneM : (u.withSex "M").sex_val ≠ "F" := by
    simp [UserProfile.sex_val, UserProfile.withSex]
  have hadjM : risk_adjusted f (u.withSex "M") = risk_after_sport f (u.withSex "M") := by
    unfold risk_adjusted
    rw [if_neg hneM]
  have hadjF : risk_adjusted f (u.withSex "F") =
      clamp01 (risk_after_sport f (u.withSex "M") * 1.15) := by
    unfold risk_adjusted
    rw [if_pos (show (u.withSex "F").sex_val = "F" from rfl), hAS]
  have hstep : risk_after_sport f (u.withSex "M") ≤
      clamp01 (risk_after_sport f (u.withSex "M") * 1.15) := by
    have hmul : risk_after_sport f (u.withSex "M") ≤
        risk_after_sport f (u.withSex "M") * 1.15 := by linarith
    calc risk_after_sport f (u.withSex "M")
        = clamp01 (risk_after_sport f (u.withSex "M")) := (clamp01_eq_self h0 h1).symm
      _ ≤ clamp01 (risk_after_sport f (u.withSex "M") * 1.15) := clamp01_mono hmul
  have hadj : risk_adjusted f (u.withSex "M") ≤ risk_adjusted f (u.withSex "F") := by
    rw [hadjM, hadjF]
    exact hstep
  exact pyround_mono 1 (mul_le_mul_of_nonneg_right hadj (by norm_num))

/-- Claim C4 (witness): the amended theorem applied at concrete inputs with
a supplied baseline of 65 bpm. -/
theorem C4_female_score_ge_male_witness :
    (compute_risk_score ⟨some 5000, some 0, some 71, some 450, some 60, none⟩
      (UserProfile.withSex ⟨some 170, none, none, some 25, some "none", some false, some 65, none, none⟩ "M")).risk_score ≤
    (compute_risk_score ⟨some 5000, some 0, some 71, some 450, some 60, none⟩
      (UserProfile.withSex ⟨some 170, none, none, some 25, some "none", some false, some 65, none, none⟩ "F")).risk_score :=
  C4_female_score_ge_male_given_baseline
    ⟨some 5000, some 0, some 71, some 450, some 60, none⟩
    ⟨some 170, none, none, some 25, some "none", some false, some 65, none, none⟩
    65 rfl (by norm_num)

/-- Claim C5 (counterexample): an input (very low step count, HR and sleep
data both present) whose returned `missing_data` has exactly one entry —
`insufficient_activity_data` — while the returned confidence is `"low"`,
not `"medium"` as the claim requires for one entry.  Confidence is computed
from the missing-signal list before the low-activity entry is appended. -/
theorem C5_counterexample_one_missing_low :
    (compute_risk_score ⟨some 500, some 0, some 65, some 450, some 60, none⟩
      ⟨some 170, none, some "M", some 25, some "none", some false, some 65, none, none⟩).missing_data.length = 1 ∧
    (compute_risk_score ⟨some 500, some 0, some 65, some 450, some 60, none⟩
      ⟨some 170, none, some "M", some 25, some "none", some false, some 65, none, none⟩).confidence = "low" := by
  constructor <;>
    norm_num [compute_risk_score, missing_signals, confidence_from_missing,
      Features.avg_steps, Features.avg_resting_hr_val, Features.avg_minutes_asleep_val]

/-- Claim C5 (amended): confidence is driven by the number of missing
physiological signals (resting HR, sleep), evaluated before the
low-activity entry `insufficient_activity_data` is appended to
`missing_data`.  In terms of the returned fields: confidence is `"high"`
iff `missing_data` is empty; `"medium"` iff it has exactly one entry and
that entry is not `insufficient_activity_data`; `"low"` iff it has two or
more entries or contains `insufficient_activity_data`.  (So a single-entry
`missing_data` can carry confidence `"low"`, contrary to the claim.) -/
theorem C5_confidence_vs_missing_data (f : Features) (u : UserProfile) :
    ((compute_risk_score f u).confidence = "high" ↔
      (compute_risk_score f u).missing_data = []) ∧
    ((compute_risk_score f u).confidence = "medium" ↔
      (compute_risk_score f u).missing_data.length = 1 ∧
      "insufficient_activity_data" ∉ (compute_risk_score f u).missing_data) ∧
    ((compute_risk_score f u).confidence = "low" ↔
      (2 ≤ (compute_risk_score f u).missing_data.length ∨
        "insufficient_activity_data" ∈ (compute_risk_score f u).missing_data)) := by
  have hconf : (compute_risk_score f u).confidence =
      (if f.avg_steps < 1000 then "low"
       else confidence_from_missing (missing_signals f)) := rfl
  have hmiss : (compute_risk_score f u).missing_data =
      (if f.avg_steps < 1000 then missing_signals f ++ ["insufficient_activity_data"]
       else missing_signals f) := rfl
  rw [hconf, hmiss]
  by_cases hs : f.avg_steps < 1000 <;>
    by_cases h1 : 0 < f.avg_resting_hr_val <;>
    by_cases h2 : 0 < f.avg_minutes_asleep_val <;>
    simp [missing_signals, confidence_from_missing, hs, h1, h2]

/-- Claim C6 (counterexample): a profile with negative `height_cm` (−175)
is not rejected — no validation error exists anywhere in the code — and
`compute_risk_score` silently returns a fully computed result, with the
guarded BMI expression substituting the neutral BMI 22: here a risk_score
of 19.3 is produced.  The claim requires an `InvalidProfileError` instead
of a silently computed score. -/
theorem C6_counterexample_negative_height_scored :
    (compute_risk_score ⟨some 5000, some 0, some 71, some 450, some 60, none⟩
      ⟨some (-175), none, some "M", some 25, some "none", some false, some 65, none, none⟩).risk_score = 193/10 ∧
    (compute_risk_score ⟨some 5000, some 0, some 71, some 450, some 60, none⟩
      ⟨some (-175), none, some "M", some 25, some "none", some false, some 65, none, none⟩).metadata.bmi = 22 := by
  have hlow : pyLower "none" = "none" := by decide
  have h1 : "none" ≠ "football" := by decide
  have h2 : "none" ≠ "soccer" := by decide
  have h3 : "none" ≠ "basketball" := by decide
  have h4 : "none" ≠ "running" := by decide
  have h5 : "none" ≠ "cycling" := by decide
  have h6 : "M" ≠ "F" := by decide
  constructor <;>
    norm_num [compute_risk_score, risk_adjusted, risk_after_sport, risk_raw,
      load_index, intensity_index, fatigue_index, hr_component, sleep_component,
      bmi_index, bmi_of, history_index, pain_index, sport_index_of, sport_risk_of,
      sport_factors, baseline_hr_of, default_baseline_hr, clamp01, clamp,
      pyround, round_half_even, Features.avg_steps, Features.avg_peak_minutes,
      Features.avg_resting_hr_val, Features.avg_minutes_asleep_val,
      UserProfile.weight_val, UserProfile.height_cm_val, UserProfile.height_m,
      UserProfile.sex_val, UserProfile.age_val, UserProfile.sport_val,
      hlow, h1, h2, h3, h4, h5, h6,
      UserProfile.acl_history, UserProfile.knee_pain, max_def, min_def]

/-- Claim C6 (amended): a profile whose (defaulted) `height_cm` is zero or
negative is not rejected and no validation error is raised; instead the BMI
expression is guarded (`if height_m > 0`) and scoring proceeds normally
with the neutral fallback BMI of 22, which also appears rounded in the
returned metadata. -/
theorem C6_nonpositive_height_falls_back_to_bmi_22 (f : Features) (u : UserProfile)
    (h : u.height_cm_val ≤ 0) :
    bmi_of f u = 22 ∧ (compute_risk_score f u).metadata.bmi = 22 := by
  have hm : ¬ 0 < u.height_m := by
    unfold UserProfile.height_m
    intro hpos
    have : (0 : ℚ) < u.height_cm_val := by linarith
    linarith
  have hb : bmi_of f u = 22 := by
    unfold bmi_of
    rw [if_neg hm]
  refine ⟨hb, ?_⟩
  have hmeta : (compute_risk_score f u).metadata.bmi = pyround (bmi_of f u) 1 := rfl
  rw [hmeta, hb]
  have h22 := pyround_intCast 22 1
  simpa using h22

/-- Claim C6 (witness): the amended theorem applied at a concrete profile
with `height_cm = -175`. -/
theorem C6_nonpositive_height_witness :
    bmi_of ⟨some 5000, some 0, some 71, some 450, some 60, none⟩
      ⟨some (-175), none, some "M", some 25, some "none", some false, some 65, none, none⟩ = 22 ∧
    (compute_risk_score ⟨some 5000, some 0, some 71, some 450, some 60, none⟩
      ⟨some (-175), none, some "M", some 25, some "none", some false, some 65, none, none⟩).metadata.bmi = 22 :=
  C6_nonpositive_height_falls_back_to_bmi_22
    ⟨some 5000, some 0, some 71, some 450, some 60, none⟩
    ⟨some (-175), none, some "M", some 25, some "none", some false, some 65, none, none⟩
    (by norm_num [UserProfile.height_cm_val])

/-- Claim C7: with fewer than 3 usable activity rows the endpoint
short-circuits to the `insufficient_data` response with a null
`risk_score`; the response is the fixed short-circuit constructor, which by
construction never invokes `compute_risk_score` (only the `assessment`
branch does). -/
theorem C7_insufficient_data_short_circuit (user : DbUser) (rows : List ActivityRow)
    (h : rows.length < 3) :
    get_realtime_risk_assessment user rows =
      RealtimeResponse.insufficientData "insufficient_data"
        "Not enough activity data yet. Need at least 3 days of Fitbit data."
        none "Unknown" "gray" "low"
        ["Connect your Fitbit and sync for at least 3 days to get accurate risk assessment.",
         "Ensure your Fitbit app is syncing with the same email you used to log in."] ∧
    (get_realtime_risk_assessment user rows).status = "insufficient_data" ∧
    (get_realtime_risk_assessment user rows).riskScore = none ∧
    (get_realtime_risk_assessment user rows).invokedScoring = false := by
  have he : get_realtime_risk_assessment user rows =
      RealtimeResponse.insufficientData "insufficient_data"
        "Not enough activity data yet. Need at least 3 days of Fitbit data."
        none "Unknown" "gray" "low"
        ["Connect your Fitbit and sync for at least 3 days to get accurate risk assessment.",
         "Ensure your Fitbit app is syncing with the same email you used to log in."] := by
    unfold get_realtime_risk_assessment
    rw [if_pos (Or.inr h)]
  exact ⟨he, by rw [he]; rfl, by rw [he]; rfl, by rw [he]; rfl⟩

/-- Claim C7 (witness): the short-circuit theorem applied to an empty list
of activity rows. -/
theorem C7_insufficient_data_witness :
    get_realtime_risk_assessment ⟨none, none, none, none, none, none, none, none, none⟩ [] =
      RealtimeResponse.insufficientData "insufficient_data"
        "Not enough activity data yet. Need at least 3 days of Fitbit data."
        none "Unknown" "gray" "low"
        ["Connect your Fitbit and sync for at least 3 days to get accurate risk assessment.",
         "Ensure your Fitbit app is syncing with the same email you used to log in."] ∧
    (get_realtime_risk_assessment ⟨none, none, none, none, none, none, none, none, none⟩ []).status = "insufficient_data" ∧
    (get_realtime_risk_assessment ⟨none, none, none, none, none, none, none, none, none⟩ []).riskScore = none ∧
    (get_realtime_risk_assessment ⟨none, none, none, none, none, none, none, none, none⟩ []).invokedScoring = false :=
  C7_insufficient_data_short_circuit ⟨none, none, none, none, none, none, none, none, none⟩ [] (by norm_num)

/-- Claim C8: every failure mode of the ML path — missing artifact, failure
to load it, or an exception during prediction — yields the same successful
response as the pure formula path: an `ok` result (never a surfaced error)
whose `method` is `"formula"`, whose score is the rounded formula risk, and
whose confidence is `None`. -/
theorem C8_ml_failure_falls_back_to_formula (data : PredictRequest) :
    ∃ resp : PredictResponse,
      predict_acl_risk MLOutcome.noArtifact data = Except.ok resp ∧
      predict_acl_risk MLOutcome.loadError data = Except.ok resp ∧
      predict_acl_risk MLOutcome.predictError data = Except.ok resp ∧
      resp.method = "formula" ∧
      resp.risk_score = pyround (calculate_formula_risk data) 3 ∧
      resp.risk_level = get_risk_level (calculate_formula_risk data) ∧
      resp.confidence = none ∧
      resp.recommendations = get_recommendations (calculate_formula_risk data) data :=
  ⟨_, rfl, rfl, rfl, rfl, rfl, rfl, rfl, rfl⟩

/-- Claim C9: `generate_recommendations` returns at most 5 strings, and the
returned list is a prefix (stable truncation, not re-sorted) of the full
rule-ordered sequence of generated notes. -/
theorem C9_recommendations_stable_truncation (r : RiskResult) (f : Features)
    (u : UserProfile) :
    (generate_recommendations r f u).length ≤ 5 ∧
    (generate_recommendations r f u) <+: recommendation_sequence r f u := by
  unfold generate_recommendations
  exact ⟨List.length_take_le 5 (recommendation_sequence r f u),
    List.take_prefix 5 (recommendation_sequence r f u)⟩

/-- Claim C10 (counterexample): two prediction requests identical except
for `sleep_efficiency`; the one reporting the higher efficiency (50 versus
0) receives a strictly lower formula risk, because a reported 0 is falsy in
Python and is replaced by the default 85 before weighting. -/
theorem C10_counterexample_zero_efficiency :
    calculate_formula_risk
      (PredictRequest.withSleepEff
        ⟨"u", none, some 30, some 70, none, none, none, none, none, false, some 0⟩ (some 50)) <
    calculate_formula_risk
      (PredictRequest.withSleepEff
        ⟨"u", none, some 30, some 70, none, none, none, none, none, false, some 0⟩ (some 0)) := by
  norm_num [calculate_formula_risk, PredictRequest.withSleepEff, pyOrQ, max_def, min_def]

/-- Claim C10 (amended): `calculate_formula_risk` is monotone nondecreasing
in `sleep_efficiency` across nonzero reported values: for two requests
identical except for `sleep_efficiency`, with both values nonzero, the
higher sleep efficiency never yields a lower risk.  (A reported 0 is falsy
and silently replaced by the default 85, which breaks monotonicity at 0.) -/
theorem C10_monotone_in_nonzero_sleep_efficiency (d : PredictRequest) (e1 e2 : ℚ)
    (h1 : e1 ≠ 0) (h2 : e2 ≠ 0) (h : e1 ≤ e2) :
    calculate_formula_risk (d.withSleepEff (some e1)) ≤
    calculate_formula_risk (d.withSleepEff (some e2)) := by
  simp only [calculate_formula_risk, PredictRequest.withSleepEff, pyOrQ]
  rw [if_neg h1, if_neg h2]
  have key : ∀ r1 r2 : ℚ, r1 ≤ r2 → min (max r1 0) 1 ≤ min (max r2 0) 1 :=
    fun r1 r2 hh => min_le_min (max_le_max hh le_rfl) le_rfl
  apply key
  split_ifs with hA
  · linarith
  · linarith

/-- Claim C10 (witness): the amended monotonicity applied at sleep
efficiencies 50 and 80 of an otherwise-fixed request. -/
theorem C10_monotone_witness :
    calculate_formula_risk
      (PredictRequest.withSleepEff
        ⟨"u", none, some 30, some 70, none, none, none, none, none, false, some 0⟩ (some 50)) ≤
    calculate_formula_risk
      (PredictRequest.withSleepEff
        ⟨"u", none, some 30, some 70, none, none, none, none, none, false, some 0⟩ (some 80)) :=
  C10_monotone_in_nonzero_sleep_efficiency
    ⟨"u", none, some 30, some 70, none, none, none, none, none, false, some 0⟩
    50 80 (by norm_num) (by norm_num) (by norm_num)

end GuardianACL
